import Mathlib

/-
Verification of the cricket-toss bet lifecycle of the KingGames3rd
repository.  The definitions below are a shallow embedding of the route
handlers in `server/cricket-toss.ts` and `server/cricket-toss-api.ts`
(the latter also appears embedded in `client/src/pages/user-management-page.tsx`
with a raw-SQL result update).  Storage is modelled as an explicit state
record; each route handler becomes a function from state and request data
to an outcome together with the successor state.  Monetary values, odds
and ids are natural numbers (smallest currency unit); statuses,
predictions and results are the literal strings the code uses.
-/

namespace KingGames

/-- String constant `TeamMatchResult.TEAM_A` from the shared schema. -/
def TEAM_A : String := "team_a"

/-- String constant `TeamMatchResult.TEAM_B` from the shared schema. -/
def TEAM_B : String := "team_b"

/-- String constant `GameType.CRICKET_TOSS` from the shared schema. -/
def CRICKET_TOSS : String := "cricket_toss"

/-- A user row as consumed by the cricket-toss routes (`storage.getUser`):
id, role string, balance in smallest currency units, blocked flag. -/
structure User where
  id : Nat
  role : String
  balance : Nat
  isBlocked : Bool
deriving Repr, DecidableEq

/-- The loosely-typed `gameData` JSON blob attached to cricket-toss game
rows.  Fields that only some route variants write are `Option`s. -/
structure GameData where
  teamA : String
  teamB : String
  description : String
  tossTime : Option String
  matchTime : Option String
  oddTeamA : Nat
  oddTeamB : Nat
  imageUrl : Option String
  status : Option String
  tossGameId : Option Nat
  matchId : Option Nat
deriving Repr, DecidableEq

/-- A row of the `games` table.  Both admin-created cricket-toss game
templates and individual user bets are rows of this one table, exactly as
in the source (`storage.createGame` is used for both). -/
structure Game where
  id : Nat
  userId : Nat
  gameType : String
  betAmount : Nat
  prediction : String
  matchId : Option Nat
  gameData : GameData
  status : Option String
  result : String
  payout : Nat
deriving Repr, DecidableEq

/-- A row of the team-match table used by the `/api/cricket-toss/:id/play`
route (`storage.getTeamMatch`). -/
structure TeamMatch where
  id : Nat
  teamA : String
  teamB : String
  category : String
  status : String
  description : String
  matchTime : String
  oddTeamA : Nat
  oddTeamB : Nat
deriving Repr, DecidableEq

/-- The persistent store visible to the routes: users, game rows, team
matches, and the id the next `createGame` insert will receive. -/
structure AppState where
  users : List User
  games : List Game
  teamMatches : List TeamMatch
  nextGameId : Nat
deriving Repr, DecidableEq

/-- `storage.getUser(id)`. -/
def getUser (st : AppState) (id : Nat) : Option User :=
  st.users.find? (fun u => u.id == id)

/-- `storage.getGame(id)`. -/
def getGame (st : AppState) (id : Nat) : Option Game :=
  st.games.find? (fun g => g.id == id)

/-- `storage.getTeamMatch(id)`. -/
def getTeamMatch (st : AppState) (id : Nat) : Option TeamMatch :=
  st.teamMatches.find? (fun m => m.id == id)

/-- `storage.updateUserBalance(id, newBalance)`: overwrite the balance of
the user rows with the given id. -/
def updateUserBalance (st : AppState) (id : Nat) (newBalance : Nat) : AppState :=
  { st with users := st.users.map (fun u => if u.id == id then { u with balance := newBalance } else u) }

/-- `storage.createGame(row)`: insert a new game row with a fresh id. -/
def createGame (st : AppState) (mk : Nat → Game) : Game × AppState :=
  let g := mk st.nextGameId
  (g, { st with games := st.games ++ [g], nextGameId := st.nextGameId + 1 })

/-- `storage.updateGameStatus(id, status)`: overwrite the status column of
the game rows with the given id. -/
def updateGameStatus (st : AppState) (id : Nat) (status : String) : AppState :=
  { st with games := st.games.map (fun g => if g.id == id then { g with status := some status } else g) }

/-- `storage.updateGameResult(id, result)`: overwrite the result column of
the game rows with the given id. -/
def updateGameResult (st : AppState) (id : Nat) (result : String) : AppState :=
  { st with games := st.games.map (fun g => if g.id == id then { g with result := result } else g) }

/-- `Math.floor((betAmount * odds) / 100)` from the play routes: natural
division is exactly floor division here since both operands are
non-negative integers. -/
def potentialPayout (betAmount odds : Nat) : Nat :=
  betAmount * odds / 100

/-- The `playSchema` zod validation of the play routes: `betAmount` has
`.min(10)` and `betOn` must be `team_a` or `team_b`. -/
def playRequestValid (betAmount : Nat) (betOn : String) : Prop :=
  10 ≤ betAmount ∧ (betOn = TEAM_A ∨ betOn = TEAM_B)

instance (betAmount : Nat) (betOn : String) : Decidable (playRequestValid betAmount betOn) := by
  unfold playRequestValid; infer_instance

/-- The `userBet` row literal of `server/cricket-toss.ts` lines 163-186:
odds are picked by the predicted team, the payout is precomputed with
`potentialPayout` and stored on the freshly created row, the row's result
is the placeholder `pending` and its `gameData.status` is `pending`. -/
def tossBetRow (game : Game) (user : User) (betAmount : Nat) (betOn : String)
    (newId : Nat) : Game :=
  { id := newId
    userId := user.id
    gameType := CRICKET_TOSS
    betAmount := betAmount
    prediction := betOn
    matchId := none
    gameData :=
      { teamA := game.gameData.teamA
        teamB := game.gameData.teamB
        description := game.gameData.description
        tossTime := game.gameData.tossTime
        matchTime := none
        oddTeamA := game.gameData.oddTeamA
        oddTeamB := game.gameData.oddTeamB
        imageUrl := none
        status := some "pending"
        tossGameId := some game.id
        matchId := none }
    status := none
    result := "pending"
    payout := potentialPayout betAmount
      (if betOn = TEAM_A then game.gameData.oddTeamA else game.gameData.oddTeamB) }

/-- The `userBet` row literal of `server/cricket-toss-api.ts` lines
294-317: odds come from the linked team match. -/
def apiBetRow (m : TeamMatch) (user : User) (betAmount : Nat) (betOn : String)
    (newId : Nat) : Game :=
  { id := newId
    userId := user.id
    gameType := CRICKET_TOSS
    betAmount := betAmount
    prediction := betOn
    matchId := some m.id
    gameData :=
      { teamA := m.teamA
        teamB := m.teamB
        description := m.description
        tossTime := none
        matchTime := some m.matchTime
        oddTeamA := m.oddTeamA
        oddTeamB := m.oddTeamB
        imageUrl := none
        status := some "pending"
        tossGameId := none
        matchId := some m.id }
    status := none
    result := "pending"
    payout := potentialPayout betAmount (if betOn = TEAM_A then m.oddTeamA else m.oddTeamB) }

/-- Outcomes of the two bet-placement routes, one constructor per early
return of the handlers.  `betCreateFailed` is the path where
`storage.createGame` throws after the balance debit already committed. -/
inductive PlayOutcome where
  | unauthorized
  | accountBlocked
  | invalidRequest
  | gameNotFound
  | notCricketToss
  | gameNotOpen
  | userNotFound
  | insufficientBalance
  | betCreateFailed
  | success (bet : Game)
deriving Repr, DecidableEq

/-- POST `/api/cricket-toss-games/:id/play` from `server/cricket-toss.ts`
(lines 96-202).  `reqUser` is the session user; `none` models an
unauthenticated request.  Guards, in source order: authentication, the
session user's blocked flag, request validation, game lookup, game type,
`gameData.status` must be the string `open`, fresh user lookup, balance
sufficiency.  Then the handler debits the balance and inserts the bet
row.  `betCreationFails` models `storage.createGame` throwing; the
handler's catch block only forwards the error, so the already-committed
debit stays in place. -/
def placeBetToss (st : AppState) (reqUser : Option User) (gameId : Nat)
    (betAmount : Nat) (betOn : String) (betCreationFails : Bool) :
    PlayOutcome × AppState :=
  match reqUser with
  | none => (.unauthorized, st)
  | some ru =>
    if ru.isBlocked then (.accountBlocked, st)
    else if ¬ playRequestValid betAmount betOn then (.invalidRequest, st)
    else
      match getGame st gameId with
      | none => (.gameNotFound, st)
      | some game =>
        if game.gameType ≠ CRICKET_TOSS then (.notCricketToss, st)
        else if game.gameData.status ≠ some "open" then (.gameNotOpen, st)
        else
          match getUser st ru.id with
          | none => (.userNotFound, st)
          | some user =>
            if user.balance < betAmount then (.insufficientBalance, st)
            else
              let st1 := updateUserBalance st user.id (user.balance - betAmount)
              if betCreationFails then (.betCreateFailed, st1)
              else
                let r := createGame st1 (tossBetRow game user betAmount betOn)
                (.success r.1, r.2)

/-- POST `/api/cricket-toss/:id/play` from `server/cricket-toss-api.ts`
(lines 223-329).  This variant resolves the id against the team-match
table (`storage.getTeamMatch`), requires `category = cricket` and
`match.status = open`, and performs NO blocked-account check: its only
identity guard is that a session user exists.  Debit and bet insertion
are again two separate storage calls with no rollback. -/
def placeBetApi (st : AppState) (reqUser : Option User) (gameId : Nat)
    (betAmount : Nat) (betOn : String) (betCreationFails : Bool) :
    PlayOutcome × AppState :=
  match reqUser with
  | none => (.unauthorized, st)
  | some ru =>
    if ¬ playRequestValid betAmount betOn then (.invalidRequest, st)
    else
      match getTeamMatch st gameId with
      | none => (.gameNotFound, st)
      | some m =>
        if m.category ≠ "cricket" then (.notCricketToss, st)
        else if m.status ≠ "open" then (.gameNotOpen, st)
        else
          match getUser st ru.id with
          | none => (.userNotFound, st)
          | some user =>
            if user.balance < betAmount then (.insufficientBalance, st)
            else
              let st1 := updateUserBalance st user.id (user.balance - betAmount)
              if betCreationFails then (.betCreateFailed, st1)
              else
                let r := createGame st1 (apiBetRow m user betAmount betOn)
                (.success r.1, r.2)

/-- Outcomes of the admin status / result routes. -/
inductive AdminOutcome where
  | unauthorized
  | forbidden
  | invalidData
  | notFound
  | notCricketToss
  | success
deriving Repr, DecidableEq

/-- PATCH `/api/cricket-toss/:id/result` from `server/cricket-toss-api.ts`
(lines 179-220).  Guards: `requireAdmin`, result string validation, game
lookup, game type.  Effect: `storage.updateGameResult(gameId, result)`
followed by `storage.updateGameStatus(gameId, "resulted")`.  The handler
contains no settlement: it never reads or writes any bet row or any user
balance (its own comment notes that a real implementation would update
winner balances). -/
def declareResultApi (st : AppState) (reqUser : Option User) (gameId : Nat)
    (result : String) : AdminOutcome × AppState :=
  match reqUser with
  | none => (.unauthorized, st)
  | some ru =>
    if ru.role ≠ "admin" then (.forbidden, st)
    else if ¬ (result = TEAM_A ∨ result = TEAM_B) then (.invalidData, st)
    else
      match getGame st gameId with
      | none => (.notFound, st)
      | some game =>
        if game.gameType ≠ CRICKET_TOSS then (.notCricketToss, st)
        else
          (.success, updateGameStatus (updateGameResult st gameId result) gameId "resulted")

/-- PATCH `/api/cricket-toss/:id/status` from `server/cricket-toss-api.ts`
(lines 142-176).  Guards: `requireAdmin`, the zod refinement that the
requested status is one of `open`, `closed`, `resulted`, game lookup,
game type.  There is NO check of the current status: any of the three
target statuses is written unconditionally. -/
def updateStatusApi (st : AppState) (reqUser : Option User) (gameId : Nat)
    (status : String) : AdminOutcome × AppState :=
  match reqUser with
  | none => (.unauthorized, st)
  | some ru =>
    if ru.role ≠ "admin" then (.forbidden, st)
    else if ¬ (status = "open" ∨ status = "closed" ∨ status = "resulted") then (.invalidData, st)
    else
      match getGame st gameId with
      | none => (.notFound, st)
      | some game =>
        if game.gameType ≠ CRICKET_TOSS then (.notCricketToss, st)
        else (.success, updateGameStatus st gameId status)

/-- Request body of the game-creation routes (`createCricketTossSchema`). -/
structure CreateCricketTossInput where
  teamA : String
  teamB : String
  description : Option String
  tossTime : String
  oddTeamA : Nat
  oddTeamB : Nat
  imageUrl : Option String
deriving Repr, DecidableEq

/-- `createCricketTossSchema.safeParse` succeeding: team names at least 2
characters, both odds within `.min(100)` and `.max(2000)`. -/
def createCricketTossValid (i : CreateCricketTossInput) : Prop :=
  2 ≤ i.teamA.length ∧ 2 ≤ i.teamB.length ∧
  100 ≤ i.oddTeamA ∧ i.oddTeamA ≤ 2000 ∧
  100 ≤ i.oddTeamB ∧ i.oddTeamB ≤ 2000

instance (i : CreateCricketTossInput) : Decidable (createCricketTossValid i) := by
  unfold createCricketTossValid; infer_instance

/-- Outcomes of the game-creation route. -/
inductive CreateOutcome where
  | forbidden
  | invalidData
  | success (g : Game)
deriving Repr, DecidableEq

/-- POST `/api/cricket-toss-games` from `server/cricket-toss.ts` (lines
52-93): admin-role gate, schema validation, then insertion of a game
template row with `betAmount` 0, `payout` 0, `result` the placeholder
`pending` and `gameData.status` the string `open`. -/
def createCricketTossGame (st : AppState) (reqUser : Option User)
    (input : CreateCricketTossInput) : CreateOutcome × AppState :=
  match reqUser with
  | none => (.forbidden, st)
  | some ru =>
    if ru.role ≠ "admin" then (.forbidden, st)
    else if ¬ createCricketTossValid input then (.invalidData, st)
    else
      let r := createGame st (fun newId =>
        { id := newId
          userId := ru.id
          gameType := CRICKET_TOSS
          betAmount := 0
          prediction := "pending"
          matchId := none
          gameData :=
            { teamA := input.teamA
              teamB := input.teamB
              description := input.description.getD ""
              tossTime := some input.tossTime
              matchTime := none
              oddTeamA := input.oddTeamA
              oddTeamB := input.oddTeamB
              imageUrl := some (input.imageUrl.getD "")
              status := some "open"
              tossGameId := none
              matchId := none }
          status := none
          result := "pending"
          payout := 0 })
      (.success r.1, r.2)

/-! Helper lemmas about the list-backed storage operations. -/

/-- Mapping a function that does not change a predicate commutes with
`find?`. -/
theorem find_map_comm {α : Type} (f : α → α) (p : α → Bool)
    (hp : ∀ a, p (f a) = p a) (l : List α) :
    (l.map f).find? p = (l.find? p).map f := by
  induction l with
  | nil => rfl
  | cons a t ih =>
    by_cases h : p a = true
    · rw [List.map_cons, List.find?_cons_of_pos _ (by rw [hp]; exact h),
        List.find?_cons_of_pos _ h, Option.map_some']
    · rw [List.map_cons, List.find?_cons_of_neg _ (by rw [hp]; simpa using h),
        List.find?_cons_of_neg _ (by simpa using h), ih]

/-- Mapping a function that preserves a projection preserves the mapped
projections. -/
theorem map_proj_of_preserved {α β : Type} (f : α → α) (proj : α → β)
    (hp : ∀ a, proj (f a) = proj a) (l : List α) :
    (l.map f).map proj = l.map proj := by
  induction l with
  | nil => rfl
  | cons a t ih => simp only [List.map_cons, hp, ih]

/-- Mapping a function that fixes every element satisfying a predicate it
also preserves does not change the filtered sublist. -/
theorem filter_map_of_fixed {α : Type} (f : α → α) (p : α → Bool)
    (hfix : ∀ a, p a = true → f a = a) (hp : ∀ a, p (f a) = p a) (l : List α) :
    (l.map f).filter p = l.filter p := by
  induction l with
  | nil => rfl
  | cons a t ih =>
    by_cases h : p a = true
    · rw [List.map_cons, List.filter_cons_of_pos (by rw [hp]; exact h),
        List.filter_cons_of_pos h, hfix a h, ih]
    · rw [List.map_cons, List.filter_cons_of_neg (by rw [hp]; simpa using h),
        List.filter_cons_of_neg (by simpa using h), ih]

/-- A user returned by `getUser` carries the looked-up id. -/
theorem getUser_id (st : AppState) (id : Nat) (u : User)
    (h : getUser st id = some u) : u.id = id := by
  have := List.find?_some h
  simpa using this

/-- A game returned by `getGame` carries the looked-up id. -/
theorem getGame_id (st : AppState) (id : Nat) (g : Game)
    (h : getGame st id = some g) : g.id = id := by
  have := List.find?_some h
  simpa using this

/-- Looking up the updated user after `updateUserBalance` returns the
same row with the new balance. -/
theorem getUser_updateUserBalance (st : AppState) (id b : Nat) (u : User)
    (h : getUser st id = some u) :
    getUser (updateUserBalance st id b) id = some { u with balance := b } := by
  have hid : u.id = id := getUser_id st id u h
  unfold getUser updateUserBalance
  rw [find_map_comm _ _ (fun a => by by_cases ha : (a.id == id) = true <;> simp [ha])]
  unfold getUser at h
  rw [h, Option.map_some']
  simp [hid]

/-- `updateUserBalance` does not change the game rows. -/
theorem games_updateUserBalance (st : AppState) (id b : Nat) :
    (updateUserBalance st id b).games = st.games := rfl

/-- Looking up the updated game after `updateGameResult` returns the same
row with the new result. -/
theorem getGame_updateGameResult (st : AppState) (id : Nat) (r : String) (g : Game)
    (h : getGame st id = some g) :
    getGame (updateGameResult st id r) id = some { g with result := r } := by
  have hid : g.id = id := getGame_id st id g h
  unfold getGame updateGameResult
  rw [find_map_comm _ _ (fun a => by by_cases ha : (a.id == id) = true <;> simp [ha])]
  unfold getGame at h
  rw [h, Option.map_some']
  simp [hid]

/-- Looking up the updated game after `updateGameStatus` returns the same
row with the new status. -/
theorem getGame_updateGameStatus (st : AppState) (id : Nat) (s : String) (g : Game)
    (h : getGame st id = some g) :
    getGame (updateGameStatus st id s) id = some { g with status := some s } := by
  have hid : g.id = id := getGame_id st id g h
  unfold getGame updateGameStatus
  rw [find_map_comm _ _ (fun a => by by_cases ha : (a.id == id) = true <;> simp [ha])]
  unfold getGame at h
  rw [h, Option.map_some']
  simp [hid]

/-- On the standalone play route, when every guard passes and bet
creation succeeds, the handler debits the balance and appends the bet
row. -/
theorem placeBetToss_success_eq (st : AppState) (ru user : User)
    (gameId betAmount : Nat) (betOn : String) (game : Game)
    (hblk : ru.isBlocked = false)
    (hreq : playRequestValid betAmount betOn)
    (hg : getGame st gameId = some game)
    (hty : game.gameType = CRICKET_TOSS)
    (hopen : game.gameData.status = some "open")
    (hu : getUser st ru.id = some user)
    (hbal : ¬ user.balance < betAmount) :
    placeBetToss st (some ru) gameId betAmount betOn false =
      (.success (tossBetRow game user betAmount betOn st.nextGameId),
       { updateUserBalance st user.id (user.balance - betAmount) with
         games := st.games ++ [tossBetRow game user betAmount betOn st.nextGameId]
         nextGameId := st.nextGameId + 1 }) := by
  simp [placeBetToss, hblk, hreq, hg, hty, hopen, hu, hbal, createGame, updateUserBalance]

/-- On the standalone play route, when every guard passes but bet
creation fails, the handler returns the state with the debit already
applied and nothing else changed. -/
theorem placeBetToss_createFail_eq (st : AppState) (ru user : User)
    (gameId betAmount : Nat) (betOn : String) (game : Game)
    (hblk : ru.isBlocked = false)
    (hreq : playRequestValid betAmount betOn)
    (hg : getGame st gameId = some game)
    (hty : game.gameType = CRICKET_TOSS)
    (hopen : game.gameData.status = some "open")
    (hu : getUser st ru.id = some user)
    (hbal : ¬ user.balance < betAmount) :
    placeBetToss st (some ru) gameId betAmount betOn true =
      (.betCreateFailed, updateUserBalance st user.id (user.balance - betAmount)) := by
  simp [placeBetToss, hblk, hreq, hg, hty, hopen, hu, hbal]

/-- On the api play route, when every guard it performs passes and bet
creation succeeds, the handler debits the balance and appends the bet
row.  No hypothesis about the blocked flag appears because the handler
performs no such check. -/
theorem placeBetApi_success_eq (st : AppState) (ru user : User)
    (gameId betAmount : Nat) (betOn : String) (m : TeamMatch)
    (hreq : playRequestValid betAmount betOn)
    (hm : getTeamMatch st gameId = some m)
    (hcat : m.category = "cricket")
    (hopen : m.status = "open")
    (hu : getUser st ru.id = some user)
    (hbal : ¬ user.balance < betAmount) :
    placeBetApi st (some ru) gameId betAmount betOn false =
      (.success (apiBetRow m user betAmount betOn st.nextGameId),
       { updateUserBalance st user.id (user.balance - betAmount) with
         games := st.games ++ [apiBetRow m user betAmount betOn st.nextGameId]
         nextGameId := st.nextGameId + 1 }) := by
  simp [placeBetApi, hreq, hm, hcat, hopen, hu, hbal, createGame, updateUserBalance]

/-! Concrete fixtures used by the closed-form checks below. -/

/-- Sample admin session user. -/
def adminU : User := { id := 1, role := "admin", balance := 0, isBlocked := false }

/-- Sample player with balance 1000, not blocked. -/
def playerU : User := { id := 2, role := "player", balance := 1000, isBlocked := false }

/-- Sample blocked player with balance 1000. -/
def blockedU : User := { id := 3, role := "player", balance := 1000, isBlocked := true }

/-- Game data of an open sample toss game with odds 150 and 200. -/
def tossGD : GameData :=
  { teamA := "India", teamB := "Australia", description := "", tossTime := some "10:00",
    matchTime := none, oddTeamA := 150, oddTeamB := 200, imageUrl := some "",
    status := some "open", tossGameId := none, matchId := none }

/-- An open cricket-toss game template with id 1. -/
def tossGame : Game :=
  { id := 1, userId := 1, gameType := CRICKET_TOSS, betAmount := 0, prediction := "pending",
    matchId := none, gameData := tossGD, status := some "open", result := "pending", payout := 0 }

/-- An open cricket team match with id 1, odds 150 and 200. -/
def cricketMatch : TeamMatch :=
  { id := 1, teamA := "India", teamB := "Australia", category := "cricket", status := "open",
    description := "", matchTime := "10:00", oddTeamA := 150, oddTeamB := 200 }

/-- Base sample state: three users, one open toss game, one open match. -/
def baseSt : AppState :=
  { users := [adminU, playerU, blockedU], games := [tossGame],
    teamMatches := [cricketMatch], nextGameId := 2 }

/-- A toss game that has already been resulted with result `team_a`. -/
def resultedGame : Game :=
  { tossGame with
    id := 5
    status := some "resulted"
    result := TEAM_A
    gameData := { tossGD with status := some "resulted" } }

/-- State whose only game is the already-resulted one. -/
def stResulted : AppState :=
  { baseSt with games := [resultedGame], nextGameId := 6 }

/-- A toss game whose `gameData.status` is `closed`, with id 4. -/
def closedGame : Game :=
  { tossGame with id := 4, gameData := { tossGD with status := some "closed" } }

/-- A cricket team match whose status is `closed`, with id 4. -/
def closedMatch : TeamMatch := { cricketMatch with id := 4, status := "closed" }

/-- State holding the closed game and the closed match. -/
def stClosed : AppState :=
  { baseSt with games := [closedGame], teamMatches := [closedMatch], nextGameId := 7 }

/-! Claim theorems. -/

/-- C9: the payout computed by the play routes is exactly
`floor(betAmount * odds / 100)` in integer arithmetic with the odds scale
fixed at 100, and the computation floors: the payout times 100 never
exceeds `betAmount * odds`, and falls short of it by less than one scale
unit, so the payout never rounds up. -/
theorem payout_is_floor_with_scale_100 (betAmount odds : Nat) :
    potentialPayout betAmount odds = betAmount * odds / 100 ∧
    potentialPayout betAmount odds * 100 ≤ betAmount * odds ∧
    betAmount * odds < potentialPayout betAmount odds * 100 + 100 := by
  refine ⟨rfl, Nat.div_mul_le_self _ _, ?_⟩
  have h1 := Nat.div_add_mod (betAmount * odds) 100
  have h2 : betAmount * odds % 100 < 100 := Nat.mod_lt _ (by norm_num)
  unfold potentialPayout
  omega

/-- C10: a cricket toss creation request with either team's odds below
100 or above 2000 fails schema validation and creates nothing, and every
game template the route does create stores both odds inside [100, 2000]. -/
theorem create_rejects_out_of_range_odds (st : AppState) (ru : User)
    (i : CreateCricketTossInput) (hrole : ru.role = "admin") :
    ((¬ (100 ≤ i.oddTeamA ∧ i.oddTeamA ≤ 2000) ∨
      ¬ (100 ≤ i.oddTeamB ∧ i.oddTeamB ≤ 2000)) →
      createCricketTossGame st (some ru) i = (.invalidData, st)) ∧
    (∀ g st', createCricketTossGame st (some ru) i = (.success g, st') →
      100 ≤ g.gameData.oddTeamA ∧ g.gameData.oddTeamA ≤ 2000 ∧
      100 ≤ g.gameData.oddTeamB ∧ g.gameData.oddTeamB ≤ 2000 ∧
      st'.games = st.games ++ [g]) := by
  constructor
  · intro hbad
    have hnv : ¬ createCricketTossValid i := by
      unfold createCricketTossValid; tauto
    simp [createCricketTossGame, hrole, hnv]
  · intro g st' h
    by_cases hv : createCricketTossValid i
    · simp only [createCricketTossGame, hrole, ne_eq, not_true_eq_false, if_false,
        hv, not_true, createGame, Prod.mk.injEq, CreateOutcome.success.injEq] at h
      obtain ⟨h1, h2⟩ := h
      obtain ⟨_, _, h3, h4, h5, h6⟩ := hv
      subst h1
      constructor
      · simpa using h3
      refine ⟨by simpa using h4, by simpa using h5, by simpa using h6, ?_⟩
      rw [← h2]
    · simp [createCricketTossGame, hrole, hv] at h

/-- C10 witness: with odds 50 for team A the concrete request is rejected
without creating anything. -/
theorem create_rejects_out_of_range_odds_check :
    createCricketTossGame baseSt (some adminU)
      { teamA := "IN", teamB := "AU", description := none, tossTime := "soon",
        oddTeamA := 50, oddTeamB := 150, imageUrl := none } = (.invalidData, baseSt) := by
  exact (create_rejects_out_of_range_odds baseSt adminU _ rfl).1 (Or.inl (by decide))

/-- C7: on both play routes a placement against an instance whose
consulted status is not the string `open` fails with the game-not-open
error and leaves the state exactly unchanged; the standalone route
consults `gameData.status` of the game row, the api route consults the
status of the linked team match. -/
theorem play_not_open_rejected (st : AppState) (ru : User)
    (gameId betAmount : Nat) (betOn : String)
    (hblk : ru.isBlocked = false)
    (hreq : playRequestValid betAmount betOn) :
    (∀ game, getGame st gameId = some game → game.gameType = CRICKET_TOSS →
      game.gameData.status ≠ some "open" →
      placeBetToss st (some ru) gameId betAmount betOn false = (.gameNotOpen, st)) ∧
    (∀ m, getTeamMatch st gameId = some m → m.category = "cricket" → m.status ≠ "open" →
      placeBetApi st (some ru) gameId betAmount betOn false = (.gameNotOpen, st)) := by
  constructor
  · intro game hg hty hst
    simp [placeBetToss, hblk, hreq, hg, hty, hst]
  · intro m hm hcat hst
    simp [placeBetApi, hreq, hm, hcat, hst]

/-- C7 witness: betting on the concrete closed game and closed match both
fail with the game-not-open error and leave the state unchanged. -/
theorem play_not_open_rejected_check :
    placeBetToss stClosed (some playerU) 4 100 TEAM_A false = (.gameNotOpen, stClosed) ∧
    placeBetApi stClosed (some playerU) 4 100 TEAM_A false = (.gameNotOpen, stClosed) := by
  constructor
  · exact (play_not_open_rejected stClosed playerU 4 100 TEAM_A rfl
      (by constructor <;> simp [TEAM_A])).1 closedGame (by decide) rfl (by decide)
  · exact (play_not_open_rejected stClosed playerU 4 100 TEAM_A rfl
      (by constructor <;> simp [TEAM_A])).2 closedMatch (by decide) rfl (by decide)

/-- C8: with every other guard passing on the standalone play route, a
bet of exactly the current balance succeeds and leaves the balance at 0,
and a bet of the current balance plus one smallest unit fails with the
insufficient-balance error and changes nothing. -/
theorem play_balance_boundary (st : AppState) (ru user : User) (gameId : Nat)
    (betOn : String) (game : Game)
    (hblk : ru.isBlocked = false)
    (hbetOn : betOn = TEAM_A ∨ betOn = TEAM_B)
    (hg : getGame st gameId = some game)
    (hty : game.gameType = CRICKET_TOSS)
    (hopen : game.gameData.status = some "open")
    (hu : getUser st ru.id = some user)
    (hmin : 10 ≤ user.balance) :
    (placeBetToss st (some ru) gameId user.balance betOn false).1 =
      .success (tossBetRow game user user.balance betOn st.nextGameId) ∧
    getUser (placeBetToss st (some ru) gameId user.balance betOn false).2 ru.id =
      some { user with balance := 0 } ∧
    placeBetToss st (some ru) gameId (user.balance + 1) betOn false =
      (.insufficientBalance, st) := by
  have hreq : playRequestValid user.balance betOn := ⟨hmin, hbetOn⟩
  have hbal : ¬ user.balance < user.balance := lt_irrefl _
  have heq := placeBetToss_success_eq st ru user gameId user.balance betOn game
    hblk hreq hg hty hopen hu hbal
  have hid : user.id = ru.id := getUser_id st ru.id user hu
  refine ⟨by rw [heq], ?_, ?_⟩
  · rw [heq]
    have hu' : getUser st user.id = some user := by rw [hid]; exact hu
    have h0 : getUser (updateUserBalance st user.id 0) user.id =
        some { user with balance := 0 } :=
      getUser_updateUserBalance st user.id 0 user hu'
    have : getUser (updateUserBalance st user.id (user.balance - user.balance)) ru.id =
        some { user with balance := 0 } := by
      rw [Nat.sub_self, ← hid]
      exact h0
    simpa [getUser] using this
  · have hreq1 : playRequestValid (user.balance + 1) betOn := ⟨by omega, hbetOn⟩
    simp [placeBetToss, hblk, hreq1, hg, hty, hopen, hu, Nat.lt_succ_self]

/-- C8 witness: the concrete player with balance 1000 betting 1000
succeeds ending at balance 0, and betting 1001 is rejected with no state
change. -/
theorem play_balance_boundary_check :
    (placeBetToss baseSt (some playerU) 1 1000 TEAM_A false).1 =
      .success (tossBetRow tossGame playerU 1000 TEAM_A 2) ∧
    getUser (placeBetToss baseSt (some playerU) 1 1000 TEAM_A false).2 2 =
      some { playerU with balance := 0 } ∧
    placeBetToss baseSt (some playerU) 1 1001 TEAM_A false =
      (.insufficientBalance, baseSt) := by
  exact play_balance_boundary baseSt playerU playerU 1 TEAM_A tossGame rfl
    (Or.inl rfl) (by decide) rfl rfl (by decide) (by decide)

/-- C1: the result-declaration route performs no settlement whatsoever.
For every state and request it leaves every user balance untouched,
changes no payout field of any game row, and leaves every row other than
the declared game row itself literally unchanged: no pending bet is
marked won, no payout is computed, and no winner is credited — contrary
to the specified settlement contract. -/
theorem declareResult_performs_no_settlement (st : AppState) (ru : Option User)
    (gameId : Nat) (result : String) :
    (declareResultApi st ru gameId result).2.users = st.users ∧
    (declareResultApi st ru gameId result).2.games.map (fun g => g.payout) =
      st.games.map (fun g => g.payout) ∧
    (declareResultApi st ru gameId result).2.games.filter (fun g => g.id != gameId) =
      st.games.filter (fun g => g.id != gameId) := by
  have hset : (declareResultApi st ru gameId result).2 = st ∨
      (declareResultApi st ru gameId result).2 =
        updateGameStatus (updateGameResult st gameId result) gameId "resulted" := by
    cases ru with
    | none => exact Or.inl rfl
    | some u =>
      by_cases h1 : u.role ≠ "admin"
      · simp [declareResultApi, h1]
      · by_cases h2 : ¬ (result = TEAM_A ∨ result = TEAM_B)
        · simp [declareResultApi, h1, h2]
        · cases hg : getGame st gameId with
          | none => simp [declareResultApi, h1, h2, hg]
          | some game =>
            by_cases h3 : game.gameType ≠ CRICKET_TOSS
            · simp [declareResultApi, h1, h2, hg, h3]
            · simp [declareResultApi, h1, h2, hg, h3]
  rcases hset with h | h
  · rw [h]; exact ⟨rfl, rfl, rfl⟩
  rw [h]
  have hid2 : ∀ a : Game, (if a.id == gameId then { a with status := some "resulted" } else a).id = a.id := by
    intro a; by_cases hb : (a.id == gameId) = true <;> simp [hb]
  have hid1 : ∀ a : Game, (if a.id == gameId then { a with result := result } else a).id = a.id := by
    intro a; by_cases hb : (a.id == gameId) = true <;> simp [hb]
  have hpay2 : ∀ a : Game, (if a.id == gameId then { a with status := some "resulted" } else a).payout = a.payout := by
    intro a; by_cases hb : (a.id == gameId) = true <;> simp [hb]
  have hpay1 : ∀ a : Game, (if a.id == gameId then { a with result := result } else a).payout = a.payout := by
    intro a; by_cases hb : (a.id == gameId) = true <;> simp [hb]
  have hfix2 : ∀ a : Game, (a.id != gameId) = true →
      (if a.id == gameId then { a with status := some "resulted" } else a) = a := by
    intro a ha
    have hb : (a.id == gameId) = false := by simpa using ha
    simp [hb]
  have hfix1 : ∀ a : Game, (a.id != gameId) = true →
      (if a.id == gameId then { a with result := result } else a) = a := by
    intro a ha
    have hb : (a.id == gameId) = false := by simpa using ha
    simp [hb]
  have hbne2 : ∀ a : Game,
      ((if a.id == gameId then { a with status := some "resulted" } else a).id != gameId) =
        (a.id != gameId) := by
    intro a; rw [hid2]
  have hbne1 : ∀ a : Game,
      ((if a.id == gameId then { a with result := result } else a).id != gameId) =
        (a.id != gameId) := by
    intro a; rw [hid1]
  refine ⟨rfl, ?_, ?_⟩
  · simp only [updateGameStatus, updateGameResult]
    rw [map_proj_of_preserved _ _ hpay2, map_proj_of_preserved _ _ hpay1]
  · simp only [updateGameStatus, updateGameResult]
    rw [filter_map_of_fixed _ _ hfix2 hbne2, filter_map_of_fixed _ _ hfix1 hbne1]

/-- C2 counterexample: re-declaring on the concrete already-resulted game
does not fail: the route reports success and overwrites the stored result
from team_a to team_b, so the idempotence guard does not exist. -/
theorem declare_on_resulted_no_guard_cex :
    (declareResultApi stResulted (some adminU) 5 TEAM_B).1 = .success ∧
    getGame (declareResultApi stResulted (some adminU) 5 TEAM_B).2 5 =
      some { resultedGame with result := TEAM_B } := by
  decide

/-- C2 amended: calling the result route again on an already-resulted
cricket toss game does not fail with any already-settled error: the route
succeeds again, overwrites the result column with the newly supplied
value and rewrites the status to resulted; user balances are untouched by
both calls since the route performs no settlement. -/
theorem declare_on_resulted_overwrites (st : AppState) (ru : User) (gameId : Nat)
    (result : String) (game : Game)
    (hrole : ru.role = "admin")
    (hres : result = TEAM_A ∨ result = TEAM_B)
    (hg : getGame st gameId = some game)
    (hty : game.gameType = CRICKET_TOSS)
    (already : game.status = some "resulted") :
    (declareResultApi st (some ru) gameId result).1 = .success ∧
    getGame (declareResultApi st (some ru) gameId result).2 gameId =
      some { game with result := result, status := some "resulted" } ∧
    (declareResultApi st (some ru) gameId result).2.users = st.users := by
  have hroute : declareResultApi st (some ru) gameId result =
      (.success, updateGameStatus (updateGameResult st gameId result) gameId "resulted") := by
    simp [declareResultApi, hrole, hres, hg, hty]
  refine ⟨by rw [hroute], ?_, by rw [hroute]; rfl⟩
  rw [hroute]
  have h1 : getGame (updateGameResult st gameId result) gameId =
      some { game with result := result } :=
    getGame_updateGameResult st gameId result game hg
  exact getGame_updateGameStatus (updateGameResult st gameId result) gameId "resulted" _ h1

/-- C2 witness: the amended behaviour at the concrete resulted game. -/
theorem declare_on_resulted_overwrites_check :
    (declareResultApi stResulted (some adminU) 5 TEAM_B).1 = .success ∧
    (declareResultApi stResulted (some adminU) 5 TEAM_B).2.users = stResulted.users := by
  have h := declare_on_resulted_overwrites stResulted adminU 5 TEAM_B resultedGame rfl
    (Or.inr rfl) (by decide) rfl (by decide)
  exact ⟨h.1, h.2.2⟩

/-- C5 counterexample: the concrete resulted game is moved straight back
to open by the status route: no invalid-transition failure occurs and the
stored status is open again after having been resulted. -/
theorem status_reopen_after_resulted_cex :
    (updateStatusApi stResulted (some adminU) 5 "open").1 = .success ∧
    getGame (updateStatusApi stResulted (some adminU) 5 "open").2 5 =
      some { resultedGame with status := some "open" } := by
  decide

/-- C5 amended: the status route performs no transition check: for any
current status, any requested status among open, closed and resulted is
accepted and written verbatim — closing does not require the instance to
be open, and a resulted instance can be set back to open or closed. -/
theorem status_route_unrestricted (st : AppState) (ru : User) (gameId : Nat)
    (s : String) (game : Game)
    (hrole : ru.role = "admin")
    (hs : s = "open" ∨ s = "closed" ∨ s = "resulted")
    (hg : getGame st gameId = some game)
    (hty : game.gameType = CRICKET_TOSS) :
    updateStatusApi st (some ru) gameId s = (.success, updateGameStatus st gameId s) ∧
    getGame (updateStatusApi st (some ru) gameId s).2 gameId =
      some { game with status := some s } := by
  have hroute : updateStatusApi st (some ru) gameId s =
      (.success, updateGameStatus st gameId s) := by
    simp [updateStatusApi, hrole, hs, hg, hty]
  refine ⟨hroute, ?_⟩
  rw [hroute]
  exact getGame_updateGameStatus st gameId s game hg

/-- C5 witness: the amended behaviour at a concrete input, writing status
closed onto the already-resulted game. -/
theorem status_route_unrestricted_check :
    updateStatusApi stResulted (some adminU) 5 "closed" =
      (.success, updateGameStatus stResulted 5 "closed") := by
  exact (status_route_unrestricted stResulted adminU 5 "closed" resultedGame rfl
    (Or.inr (Or.inl rfl)) (by decide) rfl).1

/-- C4 counterexample: the concrete successful placement of 1000 at odds
150 creates its bet row with payout 1500 stored immediately at creation,
not 0, while the row is still unsettled (result pending). -/
theorem placed_bet_payout_not_zero_cex :
    (placeBetToss baseSt (some playerU) 1 1000 TEAM_A false).1 =
      .success (tossBetRow tossGame playerU 1000 TEAM_A 2) ∧
    (tossBetRow tossGame playerU 1000 TEAM_A 2).payout = 1500 ∧
    (tossBetRow tossGame playerU 1000 TEAM_A 2).result = "pending" := by
  decide

/-- C4 amended: every successfully placed bet row is created with the
placeholder result pending and gameData status pending, but its payout
field already holds the precomputed potential payout
floor(betAmount * odds / 100) rather than 0. -/
theorem placed_bet_created_fields (st : AppState) (ru user : User)
    (gameId betAmount : Nat) (betOn : String) (game : Game)
    (hblk : ru.isBlocked = false)
    (hreq : playRequestValid betAmount betOn)
    (hg : getGame st gameId = some game)
    (hty : game.gameType = CRICKET_TOSS)
    (hopen : game.gameData.status = some "open")
    (hu : getUser st ru.id = some user)
    (hbal : ¬ user.balance < betAmount) :
    (placeBetToss st (some ru) gameId betAmount betOn false).1 =
      .success (tossBetRow game user betAmount betOn st.nextGameId) ∧
    (tossBetRow game user betAmount betOn st.nextGameId).result = "pending" ∧
    (tossBetRow game user betAmount betOn st.nextGameId).gameData.status = some "pending" ∧
    (tossBetRow game user betAmount betOn st.nextGameId).payout =
      potentialPayout betAmount
        (if betOn = TEAM_A then game.gameData.oddTeamA else game.gameData.oddTeamB) := by
  refine ⟨?_, rfl, rfl, rfl⟩
  rw [placeBetToss_success_eq st ru user gameId betAmount betOn game hblk hreq hg hty hopen hu hbal]

/-- C4 witness: the amended behaviour at a concrete placement. -/
theorem placed_bet_created_fields_check :
    (placeBetToss baseSt (some playerU) 1 100 TEAM_A false).1 =
      .success (tossBetRow tossGame playerU 100 TEAM_A 2) := by
  exact (placed_bet_created_fields baseSt playerU playerU 1 100 TEAM_A tossGame rfl
    (by decide) (by decide) rfl rfl (by decide) (by decide)).1

/-- C3 counterexample: in the concrete run where bet creation fails after
the debit, the returned state keeps the debited balance of 900 and gains
no bet row: the debit was not rolled back. -/
theorem orphaned_debit_cex :
    placeBetToss baseSt (some playerU) 1 100 TEAM_A true =
      (.betCreateFailed,
       { baseSt with users := [adminU, { playerU with balance := 900 }, blockedU] }) := by
  decide

/-- C3 amended: the balance debit and the bet-row insertion are two
separate storage writes with no enclosing transaction: when bet creation
fails after the debit, the route returns with the balance already reduced
by the bet amount and with no bet row added — an orphaned debit. -/
theorem debit_not_rolled_back (st : AppState) (ru user : User)
    (gameId betAmount : Nat) (betOn : String) (game : Game)
    (hblk : ru.isBlocked = false)
    (hreq : playRequestValid betAmount betOn)
    (hg : getGame st gameId = some game)
    (hty : game.gameType = CRICKET_TOSS)
    (hopen : game.gameData.status = some "open")
    (hu : getUser st ru.id = some user)
    (hbal : ¬ user.balance < betAmount) :
    placeBetToss st (some ru) gameId betAmount betOn true =
      (.betCreateFailed, updateUserBalance st user.id (user.balance - betAmount)) ∧
    (updateUserBalance st user.id (user.balance - betAmount)).games = st.games ∧
    getUser (updateUserBalance st user.id (user.balance - betAmount)) user.id =
      some { user with balance := user.balance - betAmount } := by
  refine ⟨placeBetToss_createFail_eq st ru user gameId betAmount betOn game
    hblk hreq hg hty hopen hu hbal, rfl, ?_⟩
  have hid : user.id = ru.id := getUser_id st ru.id user hu
  exact getUser_updateUserBalance st user.id _ user (by rw [hid]; exact hu)

/-- C3 witness: the amended behaviour at a concrete failing run. -/
theorem debit_not_rolled_back_check :
    placeBetToss baseSt (some playerU) 1 100 TEAM_A true =
      (.betCreateFailed, updateUserBalance baseSt 2 900) := by
  exact (debit_not_rolled_back baseSt playerU playerU 1 100 TEAM_A tossGame rfl
    (by decide) (by decide) rfl rfl (by decide) (by decide)).1

/-- C6 counterexample: on the api play route the concrete blocked account
places a bet successfully: its balance is debited from 1000 to 900 and a
bet row is created, with no blocked-account rejection on this path. -/
theorem blocked_bet_accepted_cex :
    (placeBetApi baseSt (some blockedU) 1 100 TEAM_A false).1 =
      .success (apiBetRow cricketMatch blockedU 100 TEAM_A 2) ∧
    getUser (placeBetApi baseSt (some blockedU) 1 100 TEAM_A false).2 3 =
      some { blockedU with balance := 900 } := by
  decide

/-- C6 amended: only the standalone play route rejects blocked accounts,
failing with the account-blocked error and no mutation; the api play
route performs no blocked check at all, so a blocked account passing the
remaining guards gets its bet accepted, with the balance debited and the
bet row created. -/
theorem blocked_account_by_path (st : AppState) (ru : User)
    (gameId betAmount : Nat) (betOn : String) (hblk : ru.isBlocked = true) :
    placeBetToss st (some ru) gameId betAmount betOn false = (.accountBlocked, st) ∧
    (∀ m user, playRequestValid betAmount betOn →
      getTeamMatch st gameId = some m → m.category = "cricket" → m.status = "open" →
      getUser st ru.id = some user → ¬ user.balance < betAmount →
      placeBetApi st (some ru) gameId betAmount betOn false =
        (.success (apiBetRow m user betAmount betOn st.nextGameId),
         { updateUserBalance st user.id (user.balance - betAmount) with
           games := st.games ++ [apiBetRow m user betAmount betOn st.nextGameId]
           nextGameId := st.nextGameId + 1 })) := by
  refine ⟨by simp [placeBetToss, hblk], ?_⟩
  intro m user hreq hm hcat hopen hu hbal
  exact placeBetApi_success_eq st ru user gameId betAmount betOn m hreq hm hcat hopen hu hbal

/-- C6 witness: the amended behaviour at concrete inputs on both paths. -/
theorem blocked_account_by_path_check :
    placeBetToss baseSt (some blockedU) 1 100 TEAM_A false = (.accountBlocked, baseSt) ∧
    (placeBetApi baseSt (some blockedU) 1 100 TEAM_A false).1 =
      .success (apiBetRow cricketMatch blockedU 100 TEAM_A 2) := by
  have h := blocked_account_by_path baseSt blockedU 1 100 TEAM_A rfl
  refine ⟨h.1, ?_⟩
  rw [h.2 cricketMatch blockedU (by decide) (by decide) rfl rfl (by decide) (by decide)]
  rfl

end KingGames
